import Mathlib

/-!
Shallow embedding of `src/marvin/utilities/asyncutils.py`.

The module under study is a small asyncio interop layer with four pieces:

* `create_task` — fire-and-forget submission with a process-wide retaining
  set `BACKGROUND_TASKS` and a completion callback that discards the task;
* `run_async` — offloads a blocking function to an executor and awaits it;
* `run_sync` — runs a coroutine from a synchronous context, probing for a
  running event loop and spawning an isolated worker thread when one is
  already running on the calling thread;
* `ExposeSyncMethodsMixin` / `expose_sync_method` — installs a synchronous
  twin of a decorated async method at subclass-construction time.

Python exceptions are modelled as a kind (class name) plus a message; a
coroutine is modelled by the outcome it produces when driven to completion
by an event loop; the host-runtime primitives (`asyncio.get_running_loop`,
`asyncio.run`, executor submission) are modelled after their documented
behavior, including the facts that `asyncio.run` refuses to start on a
thread whose loop is already running and refuses to re-await an already
consumed coroutine object.
-/

namespace AsyncUtils

/-- A Python exception, identified by its class name and its message. -/
structure Exn where
  kind : String
  msg : String
deriving DecidableEq, Repr

/-- The exception class name of the host-runtime error used by asyncio. -/
def runtimeErrorKind : String := "RuntimeError"

/-- The error `asyncio.get_running_loop` raises when no loop is running. -/
def noRunningLoopExn : Exn :=
  { kind := runtimeErrorKind, msg := "no running event loop" }

/-- The error `asyncio.run` raises when called from a thread whose event
loop is already running (raised before the coroutine is touched). -/
def runFromRunningLoopExn : Exn :=
  { kind := runtimeErrorKind,
    msg := "asyncio.run() cannot be called from a running event loop" }

/-- The error the runtime raises when a coroutine object that was already
driven to completion is awaited a second time. -/
def reuseCoroutineExn : Exn :=
  { kind := runtimeErrorKind, msg := "cannot reuse already awaited coroutine" }

/-- A coroutine object (a unit of scheduled work), modelled by the outcome
it produces when driven to completion by an event loop: a value or a
raised exception. -/
structure Coro (α : Type) where
  outcome : Except Exn α
deriving Repr

/-- Awaiting a unit of work directly under a scheduler delivers the work's
outcome: its value, or its raised error.  This is the specification-side
description of a scheduler driving a coroutine, used as the reference
point of the refinement claims about `run_sync`. -/
def await_under_scheduler {α : Type} (c : Coro α) : Except Exn α :=
  c.outcome

/-- An event loop object as seen through the probe; `is_running` is what
`loop.is_running()` reports. -/
structure Loop where
  is_running : Bool
deriving DecidableEq, Repr

/-- The ambient scheduler state of a thread: either no event loop is
running on it, or one is. -/
inductive ThreadState
  | noLoop
  | runningLoop
deriving DecidableEq, Repr

/-- Models the host-runtime primitive `asyncio.get_running_loop()`: it
returns the event loop running on the calling thread, or raises
`RuntimeError` when none is running.  It never returns a loop that is not
running. -/
def get_running_loop : ThreadState → Except Exn Loop
  | ThreadState.noLoop => Except.error noRunningLoopExn
  | ThreadState.runningLoop => Except.ok { is_running := true }

/-- Whether a thread in the given state hosts a running event loop. -/
def hasRunningLoop : ThreadState → Bool
  | ThreadState.noLoop => false
  | ThreadState.runningLoop => true

/-- The observable record of one call to the host primitive `asyncio.run`:
the delivered result, whether the coroutine object is consumed afterwards,
and whether the body of the unit of work actually executed during the
call. -/
structure RunOutcome (α : Type) where
  result : Except Exn α
  consumedAfter : Bool
  workExecuted : Bool
deriving Repr

/-- Models the host-runtime primitive `asyncio.run(coroutine)` executed on
a thread: it first refuses (with a `RuntimeError`) if that thread already
has a running event loop, then refuses (with a `RuntimeError`) if the
coroutine object was already awaited, and otherwise starts a fresh loop,
drives the unit of work to completion and delivers its outcome, leaving
the coroutine object consumed. -/
def asyncio_run {α : Type} (onRunningLoop : Bool) (consumed : Bool)
    (c : Coro α) : RunOutcome α :=
  if onRunningLoop then
    { result := Except.error runFromRunningLoopExn,
      consumedAfter := consumed, workExecuted := false }
  else if consumed then
    { result := Except.error reuseCoroutineExn,
      consumedAfter := consumed, workExecuted := false }
  else
    { result := c.outcome, consumedAfter := true, workExecuted := true }

/-- Models the matching test of Python's `except RuntimeError:` clause:
an exception is caught when its class is `RuntimeError` or one of its
builtin subclasses, `NotImplementedError` and `RecursionError`. -/
def caught_by_runtime_error_clause (e : Exn) : Bool :=
  e.kind == runtimeErrorKind || e.kind == "NotImplementedError"
    || e.kind == "RecursionError"

/-- Which arm of `run_sync` delivered the call's result: the
isolated-worker branch (`loop.is_running()` true), the inline else arm
(`loop.is_running()` false), or the `except RuntimeError` fallback taken
when the probe raised. -/
inductive BridgePath
  | isolated
  | inlineElse
  | fallback
deriving DecidableEq, Repr

/-- The observable record of one `run_sync` call (one Bridge Execution):
its result, the arm taken, whether the unit of work's body executed on
the calling thread, and whether a worker thread was spawned and joined. -/
structure BridgeTrace (α : Type) where
  result : Except Exn α
  path : BridgePath
  workRanOnCallerThread : Bool
  workerSpawned : Bool
  workerJoined : Bool
deriving Repr

/-- Embedding of `run_sync`, parametrised by the value or error the probe
`asyncio.get_running_loop()` produced and by whether the calling thread
hosts a running loop.  It follows the source line by line:

* the whole probe-and-dispatch body sits in a `try` whose
  `except RuntimeError` handler calls `asyncio.run(coroutine)` on the
  calling thread — so a `RuntimeError` (or an exception of one of its
  builtin subclasses) escaping `future.result()` or the inline
  `asyncio.run` is caught and triggers a second `asyncio.run` on the
  (by then consumed) coroutine;
* when the probed loop is running, `asyncio.run` is submitted to a fresh
  worker thread inside a `with ThreadPoolExecutor()` block, whose exit
  joins the worker on every outcome, and the caller blocks on
  `future.result()`, which re-raises the worker's exception unmodified;
* when the probed loop is not running, `asyncio.run(coroutine)` runs
  inline on the calling thread;
* a non-`RuntimeError` exception propagates out of the `try` unmodified,
  and an exception raised inside the handler itself also propagates. -/
def run_sync_with {α : Type} (probe : Except Exn Loop)
    (callerOnRunningLoop : Bool) (c : Coro α) : BridgeTrace α :=
  match probe with
  | Except.ok loop =>
    if loop.is_running then
      let w := asyncio_run false false c
      match w.result with
      | Except.ok v =>
        { result := Except.ok v, path := BridgePath.isolated,
          workRanOnCallerThread := false,
          workerSpawned := true, workerJoined := true }
      | Except.error e =>
        if caught_by_runtime_error_clause e then
          let r := asyncio_run callerOnRunningLoop w.consumedAfter c
          { result := r.result, path := BridgePath.isolated,
            workRanOnCallerThread := r.workExecuted,
            workerSpawned := true, workerJoined := true }
        else
          { result := Except.error e, path := BridgePath.isolated,
            workRanOnCallerThread := false,
            workerSpawned := true, workerJoined := true }
    else
      let r := asyncio_run callerOnRunningLoop false c
      match r.result with
      | Except.ok v =>
        { result := Except.ok v, path := BridgePath.inlineElse,
          workRanOnCallerThread := r.workExecuted,
          workerSpawned := false, workerJoined := false }
      | Except.error e =>
        if caught_by_runtime_error_clause e then
          let r2 := asyncio_run callerOnRunningLoop r.consumedAfter c
          { result := r2.result, path := BridgePath.inlineElse,
            workRanOnCallerThread := r.workExecuted || r2.workExecuted,
            workerSpawned := false, workerJoined := false }
        else
          { result := Except.error e, path := BridgePath.inlineElse,
            workRanOnCallerThread := r.workExecuted,
            workerSpawned := false, workerJoined := false }
  | Except.error e =>
    if caught_by_runtime_error_clause e then
      let r := asyncio_run callerOnRunningLoop false c
      { result := r.result, path := BridgePath.fallback,
        workRanOnCallerThread := r.workExecuted,
        workerSpawned := false, workerJoined := false }
    else
      { result := Except.error e, path := BridgePath.fallback,
        workRanOnCallerThread := false,
        workerSpawned := false, workerJoined := false }

/-- Embedding of `run_sync(coroutine)` called from a thread in the given
ambient scheduler state: the probe is `asyncio.get_running_loop()` on
that thread. -/
def run_sync {α : Type} (st : ThreadState) (c : Coro α) : BridgeTrace α :=
  run_sync_with (get_running_loop st) (hasRunningLoop st) c

/-- A future produced by submitting a blocking call to an executor,
modelled by the outcome the call produces on the worker thread. -/
structure Future (β : Type) where
  outcome : Except Exn β
deriving Repr

/-- Models `loop.run_in_executor(None, functools.partial(func, *args))`:
the packaged call runs on a pool worker and the future records its
returned value or raised error. -/
def run_in_executor {α β : Type} (func : α → Except Exn β) (arg : α) :
    Future β :=
  { outcome := func arg }

/-- Awaiting an executor future from scheduled code delivers the worker's
value, or re-raises the worker's exception unmodified at the await
point. -/
def await_future {β : Type} (f : Future β) : Except Exn β :=
  f.outcome

/-- Embedding of the inner `wrapper` of `run_async`: it awaits the
executor future and re-raises any exception `e` it catches
(`except Exception as e: raise e`) unchanged. -/
def run_async_wrapper {α β : Type} (func : α → Except Exn β) (arg : α) :
    Except Exn β :=
  match await_future (run_in_executor func arg) with
  | Except.ok v => Except.ok v
  | Except.error e => Except.error e

/-- Embedding of `run_async(func, *args)`: a coroutine that, when awaited,
runs the blocking call on an executor worker and delivers its value or
re-raises its error. -/
def run_async {α β : Type} (func : α → Except Exn β) (arg : α) : Coro β :=
  { outcome := run_async_wrapper func arg }

/-- Insertion into the process-wide set `BACKGROUND_TASKS`
(`set.add`). -/
def set_add (s : List Nat) (x : Nat) : List Nat :=
  if x ∈ s then s else x :: s

/-- Removal from the process-wide set (`set.discard`): removes the element
when present, does nothing otherwise, never raises. -/
def set_discard (s : List Nat) (x : Nat) : List Nat :=
  s.filter (fun y => y ≠ x)

/-- The completion state of a background task handle. -/
inductive TaskState
  | pending
  | done
  | failed
  | cancelled
deriving DecidableEq, Repr

/-- The observable record of one `create_task(coro)` call: the returned
task handle, the registry right after submission, and the done callback
that was attached (`BACKGROUND_TASKS.discard`). -/
structure CreateTaskResult where
  task : Nat
  registry : List Nat
  done_callback : List Nat → List Nat

/-- Embedding of `create_task`: submits the coroutine (obtaining a fresh
task handle `tid`), adds the handle to `BACKGROUND_TASKS`, and attaches
`BACKGROUND_TASKS.discard` as the task's done callback. -/
def create_task (background_tasks : List Nat) (tid : Nat) :
    CreateTaskResult :=
  { task := tid,
    registry := set_add background_tasks tid,
    done_callback := fun s => set_discard s tid }

/-- Models the host scheduler firing a task's done callbacks: the attached
callback runs exactly when the task reaches a terminal state (done,
failed, or cancelled), and not while it is pending. -/
def registry_after (r : CreateTaskResult) (st : TaskState)
    (registry : List Nat) : List Nat :=
  match st with
  | TaskState.pending => registry
  | _ => r.done_callback registry

/-- An async method of a class, as the decorator sees it: the underlying
scheduled callable plus the two attributes `expose_sync_method` may have
attached to the function object. -/
structure Method (α β : Type) where
  call : α → Coro β
  sync_name : Option String
  sync_wrapper_attr : Option (ThreadState → α → Except Exn β)

/-- Embedding of the decorator `expose_sync_method(name)`: it builds a
`sync_wrapper` that invokes the async method to obtain a coroutine and
feeds it through `run_sync`, attaches that wrapper and the declared name
as attributes on the async method's function object, and returns the
async method itself — the scheduled callable is unchanged. -/
def expose_sync_method {α β : Type} (name : String) (m : Method α β) :
    Method α β :=
  { call := m.call,
    sync_name := some name,
    sync_wrapper_attr :=
      some (fun st x => (run_sync st (m.call x)).result) }

/-- A class-dict entry: either an async method object, or a plain callable
(such as an installed synchronous twin, which carries no marker
attributes). -/
inductive Attr (α β : Type)
  | method (m : Method α β)
  | plain (f : ThreadState → α → Except Exn β)

/-- Models `setattr(cls, name, value)` on the class dict: rebinds the name
when present, appends it otherwise. -/
def set_attr {α β : Type} (d : List (String × Attr α β)) (name : String)
    (v : Attr α β) : List (String × Attr α β) :=
  if d.any (fun p => p.1 == name) then
    d.map (fun p => if p.1 == name then (name, v) else p)
  else
    d ++ [(name, v)]

/-- Attribute lookup on the class dict. -/
def get_attr {α β : Type} (d : List (String × Attr α β)) (name : String) :
    Option (Attr α β) :=
  (d.find? (fun p => p.1 == name)).map Prod.snd

/-- Embedding of `ExposeSyncMethodsMixin.__init_subclass__`: iterate over
a snapshot of the class-dict values and, for every callable carrying the
`_sync_name` marker, install its `_sync_wrapper` on the class under the
declared name. -/
def init_subclass {α β : Type} (d : List (String × Attr α β)) :
    List (String × Attr α β) :=
  (d.map Prod.snd).foldl
    (fun acc a =>
      match a with
      | Attr.method m =>
        match m.sync_name, m.sync_wrapper_attr with
        | some n, some w => set_attr acc n (Attr.plain w)
        | _, _ => acc
      | Attr.plain _ => acc)
    d

/-- Calling an installed synchronous twin `instance.name(x)` from a thread
in the given ambient state: look the name up on the class and invoke the
installed plain callable. -/
def call_sync_twin {α β : Type} (d : List (String × Attr α β))
    (name : String) (st : ThreadState) (x : α) : Option (Except Exn β) :=
  match get_attr d name with
  | some (Attr.plain f) => some (f st x)
  | _ => none

/-- The concrete example method of the spec scenario: a scheduled method
that returns its argument plus one. -/
def foo_async_example : Method Nat Nat :=
  { call := fun x => { outcome := Except.ok (x + 1) },
    sync_name := none, sync_wrapper_attr := none }

/-- Helper: on a thread with no running loop, the probe raises, the
handler runs `asyncio.run` on the fresh coroutine, and `run_sync`
delivers exactly the work's outcome. -/
theorem run_sync_noLoop_result {α : Type} (c : Coro α) :
    (run_sync ThreadState.noLoop c).result = c.outcome :=
  rfl

/-- Claim C1: a `run_sync` call made from a thread that already hosts a
running event loop never executes the unit of work on that thread: it
takes the isolated branch, spawns a worker thread, blocks on the worker's
result, and joins the worker before returning, for every outcome of the
work. -/
theorem run_sync_reentrant_never_on_caller_thread {α : Type} (c : Coro α) :
    (run_sync ThreadState.runningLoop c).path = BridgePath.isolated ∧
    (run_sync ThreadState.runningLoop c).workRanOnCallerThread = false ∧
    (run_sync ThreadState.runningLoop c).workerSpawned = true ∧
    (run_sync ThreadState.runningLoop c).workerJoined = true := by
  obtain ⟨o⟩ := c
  cases o with
  | ok v => exact ⟨rfl, rfl, rfl, rfl⟩
  | error e =>
    cases hb : caught_by_runtime_error_clause e <;>
      simp [run_sync, run_sync_with, get_running_loop, hasRunningLoop,
        asyncio_run, hb]

/-- Claim C2: for a unit of work that terminates with a value, `run_sync`
called from a context with no active scheduler returns exactly what
awaiting the unit directly under a scheduler delivers. -/
theorem run_sync_no_scheduler_refines_await {α : Type} (c : Coro α)
    (v : α) (_h : c.outcome = Except.ok v) :
    (run_sync ThreadState.noLoop c).result = await_under_scheduler c :=
  run_sync_noLoop_result c

/-- Witness for claim C2 at the concrete unit of work returning 42. -/
theorem run_sync_no_scheduler_refines_await_witness :
    (run_sync ThreadState.noLoop
        ({ outcome := Except.ok 42 } : Coro Nat)).result
      = await_under_scheduler ({ outcome := Except.ok 42 } : Coro Nat) :=
  run_sync_no_scheduler_refines_await { outcome := Except.ok 42 } 42 rfl

/-- Counterexample to claim C3 as stated: on the reentrant isolated-thread
path, a unit of work that raises a host-runtime error (`RuntimeError`
with message "boom") does not have that error propagated to the caller —
the handler's retry of `asyncio.run` on the loop-hosting thread raises a
different error instead. -/
theorem run_sync_reentrant_runtime_error_replaced :
    (run_sync ThreadState.runningLoop
        ({ outcome := Except.error { kind := "RuntimeError", msg := "boom" } }
          : Coro Nat)).result
      ≠ Except.error { kind := "RuntimeError", msg := "boom" } := by
  simp [run_sync, run_sync_with, get_running_loop, hasRunningLoop,
    asyncio_run, caught_by_runtime_error_clause, runtimeErrorKind,
    runFromRunningLoopExn]

/-- Claim C3 as amended: on the no-scheduler fallback path every error of
the unit of work, of any kind, propagates unmodified; on the reentrant
isolated-thread path an error propagates unmodified exactly when it is
not caught by the handler's `except RuntimeError` clause (that is, when
its class is neither `RuntimeError` nor one of its builtin subclasses),
while a caught work error is replaced by the error of re-running
`asyncio.run` on the loop-hosting calling thread. -/
theorem run_sync_error_propagation {α : Type} (c : Coro α) (e : Exn)
    (h : c.outcome = Except.error e) :
    (run_sync ThreadState.noLoop c).result = Except.error e ∧
    (caught_by_runtime_error_clause e = false →
      (run_sync ThreadState.runningLoop c).result = Except.error e) ∧
    (caught_by_runtime_error_clause e = true →
      (run_sync ThreadState.runningLoop c).result
        = Except.error runFromRunningLoopExn) := by
  refine ⟨by rw [run_sync_noLoop_result, h], ?_, ?_⟩
  · intro hk
    simp [run_sync, run_sync_with, get_running_loop, hasRunningLoop,
      asyncio_run, h, hk]
  · intro hk
    simp [run_sync, run_sync_with, get_running_loop, hasRunningLoop,
      asyncio_run, h, hk]

/-- Witness for the amended claim C3: a unit of work raising
`ValueError("boom")` has its error propagated unmodified on both paths,
while one raising `NotImplementedError("boom")` — a builtin subclass of
`RuntimeError` — has it replaced on the reentrant path. -/
theorem run_sync_error_propagation_witness :
    (run_sync ThreadState.noLoop
        ({ outcome := Except.error { kind := "ValueError", msg := "boom" } }
          : Coro Nat)).result
      = Except.error { kind := "ValueError", msg := "boom" } ∧
    (run_sync ThreadState.runningLoop
        ({ outcome := Except.error { kind := "ValueError", msg := "boom" } }
          : Coro Nat)).result
      = Except.error { kind := "ValueError", msg := "boom" } ∧
    (run_sync ThreadState.runningLoop
        ({ outcome :=
            Except.error { kind := "NotImplementedError", msg := "boom" } }
          : Coro Nat)).result
      = Except.error runFromRunningLoopExn := by
  have h1 := run_sync_error_propagation
    ({ outcome := Except.error { kind := "ValueError", msg := "boom" } }
      : Coro Nat)
    { kind := "ValueError", msg := "boom" } rfl
  have h2 := run_sync_error_propagation
    ({ outcome :=
        Except.error { kind := "NotImplementedError", msg := "boom" } }
      : Coro Nat)
    { kind := "NotImplementedError", msg := "boom" } rfl
  exact ⟨h1.1, h1.2.1 (by decide), h2.2.2 (by decide)⟩

/-- Claim C4: when the ambient-scheduler-state probe raises the
host-runtime error, `run_sync` does not surface it: it takes the fallback
arm, runs a fresh `asyncio.run` inline on the calling thread, executes
the unit of work there, spawns no worker, and delivers the work's own
outcome. -/
theorem run_sync_detection_failure_falls_back {α : Type} (c : Coro α) :
    get_running_loop ThreadState.noLoop = Except.error noRunningLoopExn ∧
    noRunningLoopExn.kind = runtimeErrorKind ∧
    (run_sync ThreadState.noLoop c).path = BridgePath.fallback ∧
    (run_sync ThreadState.noLoop c).result = c.outcome ∧
    (run_sync ThreadState.noLoop c).workRanOnCallerThread = true ∧
    (run_sync ThreadState.noLoop c).workerSpawned = false :=
  ⟨rfl, rfl, rfl, rfl, rfl, rfl⟩

/-- Claim C5: when the blocking function raises an error on the executor
worker, awaiting the coroutine returned by `run_async` re-raises exactly
that error — same kind and message — at the await point. -/
theorem run_async_propagates_error {α β : Type} (func : α → Except Exn β)
    (arg : α) (e : Exn) (h : func arg = Except.error e) :
    (run_async func arg).outcome = Except.error e := by
  simp [run_async, run_async_wrapper, await_future, run_in_executor, h]

/-- Witness for claim C5 at a blocking function raising
`ValueError("boom")`. -/
theorem run_async_propagates_error_witness :
    (run_async
        (fun _ : Nat =>
          (Except.error { kind := "ValueError", msg := "boom" }
            : Except Exn Nat)) 0).outcome
      = Except.error { kind := "ValueError", msg := "boom" } :=
  run_async_propagates_error _ 0 _ rfl

/-- Claim C6: for a type declaring the twin "foo" on scheduled method
"foo_async", calling the installed twin from a blocking call site with no
scheduler present returns exactly what awaiting the async method under a
scheduler delivers (value or error); in particular, for the example
method adding one, the twin returns 42 at input 41. -/
theorem sync_twin_agrees_with_async {α β : Type} (m : Method α β)
    (x : α) :
    call_sync_twin
        (init_subclass
          [("foo_async", Attr.method (expose_sync_method "foo" m))])
        "foo" ThreadState.noLoop x
      = some (await_under_scheduler (m.call x)) ∧
    call_sync_twin
        (init_subclass
          [("foo_async",
            Attr.method (expose_sync_method "foo" foo_async_example))])
        "foo" ThreadState.noLoop 41
      = some (Except.ok 42) := by
  constructor
  · simp [call_sync_twin, init_subclass, set_attr, get_attr,
      expose_sync_method, await_under_scheduler, run_sync_noLoop_result]
  · rfl

/-- Claim C8: the decorator returns the scheduled method itself with its
callable unchanged — awaiting it behaves exactly as without the
declaration — and installing the twin under a distinct name leaves the
original method's class-dict entry intact. -/
theorem expose_sync_method_frame {α β : Type} (m : Method α β)
    (name : String) (x : α) (h : name ≠ "foo_async") :
    (expose_sync_method name m).call x = m.call x ∧
    await_under_scheduler ((expose_sync_method name m).call x)
      = await_under_scheduler (m.call x) ∧
    get_attr
        (init_subclass
          [("foo_async", Attr.method (expose_sync_method name m))])
        "foo_async"
      = some (Attr.method (expose_sync_method name m)) := by
  refine ⟨rfl, rfl, ?_⟩
  simp [init_subclass, set_attr, get_attr, expose_sync_method,
    Ne.symm h]

/-- Witness for claim C8 at the example method, twin name "foo", input
41. -/
theorem expose_sync_method_frame_witness :
    (expose_sync_method "foo" foo_async_example).call 41
      = foo_async_example.call 41 ∧
    await_under_scheduler
        ((expose_sync_method "foo" foo_async_example).call 41)
      = await_under_scheduler (foo_async_example.call 41) ∧
    get_attr
        (init_subclass
          [("foo_async",
            Attr.method (expose_sync_method "foo" foo_async_example))])
        "foo_async"
      = some (Attr.method (expose_sync_method "foo" foo_async_example)) :=
  expose_sync_method_frame foo_async_example "foo" 41 (by decide)

/-- Claim C7: the task handle returned by `create_task` is in the
registry immediately after submission, and the attached done callback
removes it as soon as the task reaches any terminal state — done, failed,
or cancelled — so no terminal task remains registered. -/
theorem create_task_registry_lifecycle (reg : List Nat) (tid : Nat)
    (st : TaskState) (h : st ≠ TaskState.pending) :
    (create_task reg tid).task = tid ∧
    tid ∈ (create_task reg tid).registry ∧
    tid ∉ registry_after (create_task reg tid) st
        (create_task reg tid).registry := by
  refine ⟨rfl, ?_, ?_⟩
  · by_cases hm : tid ∈ reg <;> simp [create_task, set_add, hm]
  · cases st with
    | pending => exact absurd rfl h
    | done => simp [create_task, registry_after, set_discard]
    | failed => simp [create_task, registry_after, set_discard]
    | cancelled => simp [create_task, registry_after, set_discard]

/-- Witness for claim C7: task 5 submitted over an empty registry is
registered, and is gone after its cancellation fires the callback. -/
theorem create_task_registry_lifecycle_witness :
    (create_task [] 5).task = 5 ∧
    5 ∈ (create_task [] 5).registry ∧
    5 ∉ registry_after (create_task [] 5) TaskState.cancelled
        (create_task [] 5).registry :=
  create_task_registry_lifecycle [] 5 TaskState.cancelled (by decide)

/-- Claim C10: the inline arm of `run_sync` guarded by
`loop.is_running()` being false is unreachable: since the probe either
returns a running loop or raises the host-runtime error, every call takes
the isolated branch or the fallback branch. -/
theorem run_sync_else_branch_unreachable {α : Type} (st : ThreadState)
    (c : Coro α) :
    (run_sync st c).path ≠ BridgePath.inlineElse := by
  cases st with
  | noLoop =>
    simp [run_sync, run_sync_with, get_running_loop, hasRunningLoop,
      asyncio_run, caught_by_runtime_error_clause, noRunningLoopExn,
      runtimeErrorKind]
  | runningLoop =>
    obtain ⟨o⟩ := c
    cases o with
    | ok v =>
      simp [run_sync, run_sync_with, get_running_loop, hasRunningLoop,
        asyncio_run]
    | error e =>
      cases hb : caught_by_runtime_error_clause e <;>
        simp [run_sync, run_sync_with, get_running_loop, hasRunningLoop,
          asyncio_run, hb]

end AsyncUtils
